import Mathlib

/-!
Verification of the wallpaper-qualification and copy pipeline of `wspotsave`
(`src/main.go`).

The Go program walks a source directory, inspects each file's EXIF metadata
for its pixel dimensions, compares them against a configured threshold and
copies qualifying files into an output directory under `<baseName>.jpg`.

The embedding below is shallow: external effects (the EXIF library, the
filesystem, the ini configuration file) are abstracted as oracles packaged
in an `Env`; every observable action of the pipeline (loading the
configuration, writing a log line, opening a file for reading, creating and
writing a file) is recorded in an explicit event trace, so that claims about
logging, copying and frame effects become statements about the trace.
-/

set_option autoImplicit false

namespace Wspotsave

/-- The `config` struct of `main.go` (source/output directories and the
qualification threshold). Go `int` is modelled as `Int`. -/
structure Config where
  SourceDir : String
  OutputDir : String
  MinimumWidth : Int
  MinimumHeight : Int
  deriving Repr, DecidableEq

/-- An `fs.DirEntry` as used by the walk callback: only `Name()` and
`IsDir()` are called on it. -/
structure DirEntry where
  name : String
  isDir : Bool
  deriving Repr, DecidableEq

/-- Outcome oracle for the per-file EXIF inspection performed by
`imageSize`: whether `os.Open` succeeds, whether `exif.Decode` succeeds, and
the `String()` rendering of the `PixelXDimension` / `PixelYDimension` tags
(`none` when `info.Get` fails for that tag). -/
structure FileMeta where
  canOpen : Bool
  exifOk : Bool
  widthTag : Option String
  heightTag : Option String
  deriving Repr, DecidableEq

/-- Result of `os.Stat` on a target path, as discriminated by the Go code:
the stat succeeded (`found`), failed with a not-exist error (`noEntry`,
i.e. `os.IsNotExist(err)` is true), or failed with any other error
(`otherError`, e.g. a permission error on a path component). -/
inductive StatResult where
  | found
  | noEntry
  | otherError
  deriving Repr, DecidableEq

/-- Result of `os.Stat` on a directory path as discriminated by
`checkDirectory`: the path is a directory, a non-directory, missing, or the
stat failed with some other error carrying message `msg`. -/
inductive DirStat where
  | isDirectory
  | isFile
  | noEntry
  | statError (msg : String)
  deriving Repr, DecidableEq

/-- Observable actions of the pipeline, recorded in order. `configLoad`
marks a call to `loadConfig`; `logged` a line written through the `log`
package; `openedRead` an `os.Open` for reading; `created` an `os.Create`;
`written` a completed `io.Copy` of `bytes` into the file at `path`. -/
inductive Event where
  | configLoad
  | logged (line : String)
  | openedRead (path : String)
  | created (path : String)
  | written (path : String) (bytes : List Nat)
  deriving Repr, DecidableEq

/-- Oracle environment for one run: the configuration the ini provider
yields (assumed stable within the run), per-path EXIF inspection outcomes,
`os.Stat` outcomes on target paths and on directory paths, success of
`os.Create` / `os.Open` / `io.Copy`, and the byte content of source files. -/
structure Env where
  config : Config
  meta : String → FileMeta
  stat : String → StatResult
  dirStat : String → DirStat
  createOk : String → Bool
  openOk : String → Bool
  copyOk : String → String → Bool
  content : String → List Nat

/-- `filepath.Join dir name` for a clean directory path and a plain base
name: the separator-joined concatenation. -/
def joinPath (dir name : String) : String :=
  dir ++ "/" ++ name

/-! ### strconv.Atoi -/

/-- Value of a decimal digit character, `none` for a non-digit. -/
def digitVal (c : Char) : Option Nat :=
  if '0' ≤ c ∧ c ≤ '9' then some (c.toNat - '0'.toNat) else none

/-- Accumulate a decimal digit string left to right; fails on the first
non-digit character. -/
def parseDigitsAux : List Char → Nat → Option Nat
  | [], acc => some acc
  | c :: cs, acc =>
    match digitVal c with
    | none => none
    | some d => parseDigitsAux cs (acc * 10 + d)

/-- Parse an optional sign followed by a nonempty digit string, the decimal
syntax accepted by `strconv.ParseInt` in base 10 (which tests whether the
first byte is `+` or `-` and parses the remaining digits). -/
def parseSigned (s : String) : Option Int :=
  match s.data with
  | [] => none
  | c :: cs =>
    if c = '-' then
      match cs with
      | [] => none
      | _ :: _ => (parseDigitsAux cs 0).map fun n => -(Int.ofNat n)
    else if c = '+' then
      match cs with
      | [] => none
      | _ :: _ => (parseDigitsAux cs 0).map Int.ofNat
    else
      (parseDigitsAux (c :: cs) 0).map Int.ofNat

/-- Smallest value of Go's 64-bit `int`. -/
def int64Min : Int := -(2 ^ 63)

/-- Largest value of Go's 64-bit `int`. -/
def int64Max : Int := 2 ^ 63 - 1

/-- `strconv.Atoi`: parse a signed decimal integer; a syntax or range
failure yields the `*strconv.NumError` message that `err.Error()` renders. -/
def atoi (s : String) : Except String Int :=
  match parseSigned s with
  | none => Except.error ("strconv.Atoi: parsing \"" ++ s ++ "\": invalid syntax")
  | some v =>
    if v < int64Min ∨ int64Max < v then
      Except.error ("strconv.Atoi: parsing \"" ++ s ++ "\": value out of range")
    else
      Except.ok v

/-! ### imageSize -/

/-- `imageSize` of `main.go`: open the file, decode EXIF, fetch the
`PixelXDimension` and `PixelYDimension` tags and parse each with
`strconv.Atoi`. Returns the `(width, height)` pair or the error message of
the failing step, together with the trace of file opens it performed
(`imageFile.Name()` equals the path passed to `os.Open`). -/
def imageSize (env : Env) (imagePath : String) :
    Except String (Int × Int) × List Event :=
  let m := env.meta imagePath
  if m.canOpen = false then
    (Except.error ("couldn't open " ++ imagePath), [])
  else
    let ev := [Event.openedRead imagePath]
    if m.exifOk = false then
      (Except.error ("couldn't extract metadata of " ++ imagePath), ev)
    else
      match m.widthTag with
      | none => (Except.error ("couldn't get width of " ++ imagePath), ev)
      | some ws =>
        match m.heightTag with
        | none => (Except.error ("couldn't get height of " ++ imagePath), ev)
        | some hs =>
          match atoi ws with
          | Except.error e => (Except.error e, ev)
          | Except.ok width =>
            match atoi hs with
            | Except.error e => (Except.error e, ev)
            | Except.ok height => (Except.ok (width, height), ev)

/-! ### loadConfig and isImageWallpaper -/

/-- `loadConfig` of `main.go`. The ini file reading, default restoration
and struct mapping are external-library plumbing abstracted by the oracle:
each call yields the run's configuration and is recorded as a `configLoad`
event (which is what lets us count how often the configuration is read). -/
def loadConfig (env : Env) : Config × List Event :=
  (env.config, [Event.configLoad])

/-- `isImageWallpaper` of `main.go`: load the configuration, read the image
size, and qualify iff neither dimension is below its configured minimum; an
extraction failure is replaced by the uniform error
`couldn't get size of <path>`. -/
def isImageWallpaper (env : Env) (imagePath : String) :
    Except String Bool × List Event :=
  let cfg := (loadConfig env).1
  let ev₁ := (loadConfig env).2
  let minimumWidth := cfg.MinimumWidth
  let minimumHeight := cfg.MinimumHeight
  let sz := imageSize env imagePath
  match sz.1 with
  | Except.error _ =>
    (Except.error ("couldn't get size of " ++ imagePath), ev₁ ++ sz.2)
  | Except.ok (width, height) =>
    if width < minimumWidth ∨ height < minimumHeight then
      (Except.ok false, ev₁ ++ sz.2)
    else
      (Except.ok true, ev₁ ++ sz.2)

/-! ### copyFile and the walk callback -/

/-- `copyFile` of `main.go`: `os.Create` the target (recorded as `created`
on success), `os.Open` the source (recorded as `openedRead`), then
`io.Copy` the source bytes into the target (recorded as `written`). Each
failing step returns its error message; `targetFile.Name()` equals the path
passed to `os.Create`. -/
def copyFile (env : Env) (sourcePath targetPath : String) :
    Option String × List Event :=
  if env.createOk targetPath = false then
    (some ("couldn't create file " ++ targetPath), [])
  else if env.openOk sourcePath = false then
    (some ("couldn't open " ++ sourcePath), [Event.created targetPath])
  else if env.copyOk sourcePath targetPath = false then
    (some ("couldn't copy file " ++ targetPath),
      [Event.created targetPath, Event.openedRead sourcePath])
  else
    (none,
      [Event.created targetPath, Event.openedRead sourcePath,
        Event.written targetPath (env.content sourcePath)])

/-- What the walk callback hands back to `filepath.WalkDir`: the returned
`error` value (`ret none` is `return nil`), or a runtime panic. -/
inductive StepOutcome where
  | ret (err : Option String)
  | panicked
  deriving Repr, DecidableEq

/-- The `fs.WalkDirFunc` closure built by `copyWallpapersTo outputDir` in
`main.go`. Its third parameter (the traversal error passed in by
`filepath.WalkDir`) is bound to `_` in the source and never inspected. The
first statement is `d.IsDir()`; when `WalkDir` invokes the callback with a
`nil` entry (root stat failure) this is a method call through a nil
interface value, which panics. Every ordinary path ends in `return nil`. -/
def walkDirFunc (env : Env) (outputDir : String) (imagePath : String)
    (d : Option DirEntry) (walkErr : Option String) :
    StepOutcome × List Event :=
  match d with
  | none => (StepOutcome.panicked, [])
  | some d =>
    if d.isDir then
      (StepOutcome.ret none, [])
    else
      let w := isImageWallpaper env imagePath
      match w.1 with
      | Except.error e =>
        (StepOutcome.ret none, w.2 ++ [Event.logged e])
      | Except.ok isWallpaper =>
        if isWallpaper = false then
          (StepOutcome.ret none,
            w.2 ++ [Event.logged (d.name ++ " size is too small")])
        else
          let targetPath := joinPath outputDir (d.name ++ ".jpg")
          match env.stat targetPath with
          | StatResult.noEntry =>
            let c := copyFile env imagePath targetPath
            match c.1 with
            | some e =>
              (StepOutcome.ret none,
                w.2 ++ [Event.logged ("copying file " ++ targetPath)]
                  ++ c.2 ++ [Event.logged e])
            | none =>
              (StepOutcome.ret none,
                w.2 ++ [Event.logged ("copying file " ++ targetPath)] ++ c.2)
          | _ =>
            (StepOutcome.ret none,
              w.2 ++ [Event.logged ("File " ++ targetPath ++ " already exists")])

/-! ### checkDirectory, the walk driver and main -/

/-- `checkDirectory` of `main.go`: `os.Stat` the path; report a missing
path, a stat error, or a non-directory; `none` means the check passed. -/
def checkDirectory (env : Env) (dirPath : String) : Option String :=
  match env.dirStat dirPath with
  | DirStat.noEntry => some (dirPath ++ " doesn't exist")
  | DirStat.statError e => some e
  | DirStat.isFile => some (dirPath ++ " is not a directory")
  | DirStat.isDirectory => none

/-- One invocation of the walk callback as `filepath.WalkDir` performs it:
the visited path, the directory entry (`none` when the root stat failed),
and the traversal error `WalkDir` passes for this visit (`some` for an
error visit such as an unreadable directory). -/
structure Visit where
  path : String
  entry : Option DirEntry
  walkErr : Option String
  deriving Repr, DecidableEq

/-- How a run ends: `WalkDir` returned `nil` and `main` falls off the end
(`success`), `log.Fatalln` fired on an overall error (`fatal`), or the
process panicked. -/
inductive RunResult where
  | success
  | fatal (msg : String)
  | panicked
  deriving Repr, DecidableEq

/-- The `filepath.WalkDir` driver loop over the sequence of callback
invocations the walk generates: a callback that returns a non-nil error
aborts the walk with that error, a panic aborts the process, and otherwise
the walk continues to the next visit and returns `nil` at the end. -/
def runWalk (env : Env) (outputDir : String) :
    List Visit → RunResult × List Event
  | [] => (RunResult.success, [])
  | v :: rest =>
    let s := walkDirFunc env outputDir v.path v.entry v.walkErr
    match s.1 with
    | StepOutcome.panicked => (RunResult.panicked, s.2)
    | StepOutcome.ret (some e) => (RunResult.fatal e, s.2)
    | StepOutcome.ret none =>
      let r := runWalk env outputDir rest
      (r.1, s.2 ++ r.2)

/-- `main` of `main.go` from the `loadConfig()` call on (line 45): load the
configuration once, check that the source and output paths are directories
(`log.Fatalln` on violation), then run the walk over the source directory;
a non-nil error from `WalkDir` is fatal. The visit list is the traversal
sequence the filesystem yields for the source directory. -/
def runMain (env : Env) (visits : List Visit) : RunResult × List Event :=
  let cfg := (loadConfig env).1
  let ev₀ := (loadConfig env).2
  match checkDirectory env cfg.SourceDir with
  | some e => (RunResult.fatal e, ev₀)
  | none =>
    match checkDirectory env cfg.OutputDir with
    | some e => (RunResult.fatal e, ev₀)
    | none =>
      let r := runWalk env cfg.OutputDir visits
      (r.1, ev₀ ++ r.2)

/-! ### Trace observations -/

/-- The log lines of a trace, in order: what the Logger/Reporter receives. -/
def loggedLines (tr : List Event) : List String :=
  tr.filterMap fun e =>
    match e with
    | Event.logged s => some s
    | _ => none

/-- The path an event writes to (`os.Create` or a completed `io.Copy`),
if any. -/
def writePath (e : Event) : Option String :=
  match e with
  | Event.created p => some p
  | Event.written p _ => some p
  | _ => none

/-- Whether an event is a configuration load. -/
def isConfigLoad (e : Event) : Bool :=
  match e with
  | Event.configLoad => true
  | _ => false

/-- Number of `loadConfig` calls recorded in a trace. -/
def countLoads (tr : List Event) : Nat :=
  tr.countP isConfigLoad

/-! ### Concrete test environments -/

/-- Build a run environment with the default 1080×1080 threshold, existing
source and output directories, succeeding copy oracles, a fixed byte
content and the given metadata and target-stat oracles. -/
def mkEnv (meta : String → FileMeta) (stat : String → StatResult) : Env :=
  { config := { SourceDir := "cache", OutputDir := "pics",
                MinimumWidth := 1080, MinimumHeight := 1080 }
    meta := meta
    stat := stat
    dirStat := fun _ => DirStat.isDirectory
    createOk := fun _ => true
    openOk := fun _ => true
    copyOk := fun _ _ => true
    content := fun _ => [255, 216, 255, 224] }

/-- Every file decodes as a 1920×1080 image; no target exists yet. -/
def goodEnv : Env :=
  mkEnv (fun _ => ⟨true, true, some "1920", some "1080"⟩) fun _ => StatResult.noEntry

/-- Every file decodes with dimensions exactly at the 1080×1080 threshold. -/
def eqEnv : Env :=
  mkEnv (fun _ => ⟨true, true, some "1080", some "1080"⟩) fun _ => StatResult.noEntry

/-- Every file decodes one pixel below the minimum width. -/
def belowEnv : Env :=
  mkEnv (fun _ => ⟨true, true, some "1079", some "1080"⟩) fun _ => StatResult.noEntry

/-- Every file fails to open (`os.Open` error). -/
def openFailEnv : Env :=
  mkEnv (fun _ => ⟨false, true, some "1920", some "1080"⟩) fun _ => StatResult.noEntry

/-- Every file opens but `exif.Decode` fails (not a recognized container). -/
def decodeFailEnv : Env :=
  mkEnv (fun _ => ⟨true, false, some "1920", some "1080"⟩) fun _ => StatResult.noEntry

/-- Every file decodes but its width tag is not parseable as an integer. -/
def parseFailEnv : Env :=
  mkEnv (fun _ => ⟨true, true, some "19a2", some "1080"⟩) fun _ => StatResult.noEntry

/-- Every file decodes with a negative width tag string. -/
def negEnv : Env :=
  mkEnv (fun _ => ⟨true, true, some "-1", some "1080"⟩) fun _ => StatResult.noEntry

/-- Qualifying files, but `os.Stat` on every target path fails with an
error that is not a not-exist error (e.g. permission denied). -/
def statErrEnv : Env :=
  mkEnv (fun _ => ⟨true, true, some "1920", some "1080"⟩) fun _ => StatResult.otherError

/-- `cache/img1` is a qualifying 1920×1080 image, `cache/img3` is not a
recognized image container, everything else qualifies; no target exists. -/
def mixEnv : Env :=
  mkEnv
    (fun p =>
      if p = "cache/img3" then ⟨true, false, some "1920", some "1080"⟩
      else ⟨true, true, some "1920", some "1080"⟩)
    fun _ => StatResult.noEntry

/-- A single-file traversal: the walk visits `cache/img1`. -/
def oneFileVisits : List Visit :=
  [⟨"cache/img1", some ⟨"img1", false⟩, none⟩]

/-- A traversal in which `WalkDir` reports a read error on the directory
`cache/sub` mid-walk and then goes on to visit the file `cache/img1`. -/
def errVisits : List Visit :=
  [⟨"cache/sub", some ⟨"sub", true⟩, some "open cache/sub: permission denied"⟩,
   ⟨"cache/img1", some ⟨"img1", false⟩, none⟩]

/-- A traversal visiting the qualifying `cache/img1` and the corrupt
`cache/img3`. -/
def mixVisits : List Visit :=
  [⟨"cache/img1", some ⟨"img1", false⟩, none⟩,
   ⟨"cache/img3", some ⟨"img3", false⟩, none⟩]

/-! ### Helper lemmas -/

/-- The trace of `imageSize` is the single read-open of the file when the
open succeeds and empty otherwise: the inspector performs no other effect. -/
theorem imageSize_snd (env : Env) (p : String) :
    (imageSize env p).2 =
      if (env.meta p).canOpen = true then [Event.openedRead p] else [] := by
  unfold imageSize
  cases hco : (env.meta p).canOpen <;> simp [hco]
  cases (env.meta p).exifOk <;> simp
  cases (env.meta p).widthTag <;> simp
  cases (env.meta p).heightTag <;> simp
  cases atoi _ <;> simp
  cases atoi _ <;> simp

/-- The trace of `isImageWallpaper` is one configuration load followed by
the inspector's trace. -/
theorem isImageWallpaper_snd (env : Env) (p : String) :
    (isImageWallpaper env p).2 = Event.configLoad :: (imageSize env p).2 := by
  unfold isImageWallpaper loadConfig
  cases hsz : (imageSize env p).1 with
  | error e => simp [hsz]
  | ok wh =>
    obtain ⟨w, h⟩ := wh
    by_cases hlt : w < env.config.MinimumWidth ∨ h < env.config.MinimumHeight <;>
      simp [hsz, hlt]

/-- No event of `isImageWallpaper`'s trace writes to any file. -/
theorem isImageWallpaper_no_writes (env : Env) (p : String) :
    ∀ e ∈ (isImageWallpaper env p).2, writePath e = none := by
  intro e he
  rw [isImageWallpaper_snd, List.mem_cons] at he
  rcases he with rfl | he
  · rfl
  · rw [imageSize_snd] at he
    rcases hco : (env.meta p).canOpen <;> rw [hco] at he <;> simp at he
    subst he; rfl

/-- `isImageWallpaper` on a successfully inspected file answers the
threshold comparison of the dimensions. -/
theorem isImageWallpaper_ok (env : Env) (p : String) (w h : Int)
    (hsize : (imageSize env p).1 = Except.ok (w, h)) :
    (isImageWallpaper env p).1 =
      Except.ok
        (if w < env.config.MinimumWidth ∨ h < env.config.MinimumHeight
          then false else true) := by
  unfold isImageWallpaper loadConfig
  by_cases hlt : w < env.config.MinimumWidth ∨ h < env.config.MinimumHeight <;>
    simp [hsize, hlt]

/-- `isImageWallpaper` on a file whose inspection fails answers the uniform
`couldn't get size of` error, discarding the inspector's message. -/
theorem isImageWallpaper_error (env : Env) (p : String) (msg : String)
    (herr : (imageSize env p).1 = Except.error msg) :
    (isImageWallpaper env p).1 =
      Except.error ("couldn't get size of " ++ p) := by
  unfold isImageWallpaper loadConfig
  simp [herr]

/-- The walk callback never looks at the traversal error `WalkDir` passes
to it (the parameter is `_` in the source). -/
theorem walkDirFunc_walkErr_irrel (env : Env) (o p : String)
    (d : Option DirEntry) (w w' : Option String) :
    walkDirFunc env o p d w = walkDirFunc env o p d w' := rfl

/-- On a directory entry the callback does nothing and returns `nil`. -/
theorem walkDirFunc_dir (env : Env) (o p : String) (d : DirEntry)
    (w : Option String) (hdir : d.isDir = true) :
    walkDirFunc env o p (some d) w = (StepOutcome.ret none, []) := by
  unfold walkDirFunc
  simp [hdir]

/-- On any non-nil entry the callback returns `nil`: no per-file condition
is ever propagated to `WalkDir` as an error. -/
theorem walkDirFunc_fst (env : Env) (o p : String) (d : DirEntry)
    (w : Option String) :
    (walkDirFunc env o p (some d) w).1 = StepOutcome.ret none := by
  unfold walkDirFunc
  cases hd : d.isDir <;> simp [hd]
  cases hq : (isImageWallpaper env p).1 with
  | error e => simp
  | ok b =>
    cases b <;> simp
    cases hstat : env.stat (joinPath o (d.name ++ ".jpg")) <;> simp
    cases hc : (copyFile env p (joinPath o (d.name ++ ".jpg"))).1 <;> simp

/-- Extraction-failure branch of the callback: log the (uniform) error and
return `nil`. -/
theorem walkDirFunc_error (env : Env) (o p : String) (d : DirEntry)
    (w : Option String) (msg : String) (hdir : d.isDir = false)
    (herr : (isImageWallpaper env p).1 = Except.error msg) :
    walkDirFunc env o p (some d) w =
      (StepOutcome.ret none,
        (isImageWallpaper env p).2 ++ [Event.logged msg]) := by
  unfold walkDirFunc
  simp [hdir, herr]

/-- Non-qualifying branch of the callback: log the too-small line and
return `nil`. -/
theorem walkDirFunc_small (env : Env) (o p : String) (d : DirEntry)
    (w : Option String) (hdir : d.isDir = false)
    (hq : (isImageWallpaper env p).1 = Except.ok false) :
    walkDirFunc env o p (some d) w =
      (StepOutcome.ret none,
        (isImageWallpaper env p).2
          ++ [Event.logged (d.name ++ " size is too small")]) := by
  unfold walkDirFunc
  simp [hdir, hq]

/-- Qualifying, fresh-target branch of the callback: log the copy, run
`copyFile`, log its error if it failed, and return `nil`. -/
theorem walkDirFunc_copy (env : Env) (o p : String) (d : DirEntry)
    (w : Option String) (hdir : d.isDir = false)
    (hq : (isImageWallpaper env p).1 = Except.ok true)
    (hstat : env.stat (joinPath o (d.name ++ ".jpg")) = StatResult.noEntry) :
    walkDirFunc env o p (some d) w =
      (StepOutcome.ret none,
        (isImageWallpaper env p).2
          ++ [Event.logged ("copying file " ++ joinPath o (d.name ++ ".jpg"))]
          ++ (copyFile env p (joinPath o (d.name ++ ".jpg"))).2
          ++ (match (copyFile env p (joinPath o (d.name ++ ".jpg"))).1 with
              | some e => [Event.logged e]
              | none => [])) := by
  unfold walkDirFunc
  cases hc : (copyFile env p (joinPath o (d.name ++ ".jpg"))).1 <;>
    simp [hdir, hq, hstat, hc]

/-- Qualifying branch with a target stat outcome that is not a not-exist
error (the target exists, or the stat failed otherwise): skip the copy and
log `already exists`. -/
theorem walkDirFunc_skip (env : Env) (o p : String) (d : DirEntry)
    (w : Option String) (hdir : d.isDir = false)
    (hq : (isImageWallpaper env p).1 = Except.ok true)
    (hstat : env.stat (joinPath o (d.name ++ ".jpg")) ≠ StatResult.noEntry) :
    walkDirFunc env o p (some d) w =
      (StepOutcome.ret none,
        (isImageWallpaper env p).2
          ++ [Event.logged
                ("File " ++ joinPath o (d.name ++ ".jpg") ++ " already exists")]) := by
  unfold walkDirFunc
  cases hs : env.stat (joinPath o (d.name ++ ".jpg")) <;> simp [hdir, hq, hs]
  exact absurd hs hstat

/-- When all three filesystem steps succeed, `copyFile` creates the target,
opens the source for reading and writes the source's byte content to the
target. -/
theorem copyFile_ok (env : Env) (s t : String)
    (hc : env.createOk t = true) (ho : env.openOk s = true)
    (hcp : env.copyOk s t = true) :
    copyFile env s t =
      (none,
        [Event.created t, Event.openedRead s,
          Event.written t (env.content s)]) := by
  unfold copyFile
  simp [hc, ho, hcp]

/-- Every write event of `copyFile` targets exactly the target path. -/
theorem copyFile_writes (env : Env) (s t : String) :
    ∀ e ∈ (copyFile env s t).2, ∀ q, writePath e = some q → q = t := by
  unfold copyFile
  cases hct : env.createOk t <;> cases hos : env.openOk s <;>
    cases hcp : env.copyOk s t <;>
    simp [hct, hos, hcp, writePath]

/-- `countLoads` splits over trace concatenation. -/
theorem countLoads_append (a b : List Event) :
    countLoads (a ++ b) = countLoads a + countLoads b :=
  List.countP_append isConfigLoad a b

/-- Copying a file loads no configuration. -/
theorem countLoads_copyFile (env : Env) (s t : String) :
    countLoads (copyFile env s t).2 = 0 := by
  unfold copyFile
  cases hct : env.createOk t <;> cases hos : env.openOk s <;>
    cases hcp : env.copyOk s t <;>
    simp [hct, hos, hcp, countLoads, isConfigLoad]

/-- The dimension inspector loads no configuration. -/
theorem countLoads_imageSize (env : Env) (p : String) :
    countLoads (imageSize env p).2 = 0 := by
  rw [imageSize_snd]
  cases hco : (env.meta p).canOpen <;> simp [hco, countLoads, isConfigLoad]

/-- Each `isImageWallpaper` call loads the configuration exactly once. -/
theorem countLoads_isImageWallpaper (env : Env) (p : String) :
    countLoads (isImageWallpaper env p).2 = 1 := by
  rw [isImageWallpaper_snd]
  unfold countLoads
  rw [List.countP_cons]
  have h0 := countLoads_imageSize env p
  unfold countLoads at h0
  simp [h0, isConfigLoad]

/-- A single log line loads no configuration. -/
theorem countLoads_logged (s : String) : countLoads [Event.logged s] = 0 := rfl

/-- The empty trace loads no configuration. -/
theorem countLoads_nil : countLoads [] = 0 := rfl

/-- Each callback invocation on a non-directory entry loads the
configuration exactly once; a directory entry loads it not at all. -/
theorem countLoads_walkDirFunc (env : Env) (o p : String) (d : DirEntry)
    (w : Option String) :
    countLoads (walkDirFunc env o p (some d) w).2 =
      if d.isDir then 0 else 1 := by
  cases hd : d.isDir
  · simp only [if_neg Bool.false_ne_true]
    cases hq : (isImageWallpaper env p).1 with
    | error e =>
      rw [walkDirFunc_error env o p d w e hd hq]
      rw [countLoads_append, countLoads_isImageWallpaper, countLoads_logged]
    | ok b =>
      cases b
      · rw [walkDirFunc_small env o p d w hd hq]
        rw [countLoads_append, countLoads_isImageWallpaper, countLoads_logged]
      · cases hstat : env.stat (joinPath o (d.name ++ ".jpg"))
        case found =>
          rw [walkDirFunc_skip env o p d w hd hq (by simp [hstat])]
          rw [countLoads_append, countLoads_isImageWallpaper,
            countLoads_logged]
        case noEntry =>
          rw [walkDirFunc_copy env o p d w hd hq hstat]
          cases hc : (copyFile env p (joinPath o (d.name ++ ".jpg"))).1 <;>
            simp only [countLoads_append, countLoads_isImageWallpaper,
              countLoads_logged, countLoads_copyFile, countLoads_nil]
        case otherError =>
          rw [walkDirFunc_skip env o p d w hd hq (by simp [hstat])]
          rw [countLoads_append, countLoads_isImageWallpaper,
            countLoads_logged]
  · rw [walkDirFunc_dir env o p d w hd]
    simp [hd, countLoads]

/-- A walk all of whose visits carry a non-nil entry runs to completion: it
returns `nil` overall and its trace is the concatenation, in order, of the
callback traces of its visits. -/
theorem runWalk_eq (env : Env) (o : String) (visits : List Visit)
    (h : ∀ v ∈ visits, v.entry.isSome) :
    runWalk env o visits =
      (RunResult.success,
        (visits.map fun v =>
          (walkDirFunc env o v.path v.entry v.walkErr).2).flatten) := by
  induction visits with
  | nil => rfl
  | cons v rest ih =>
    obtain ⟨d, hd⟩ := Option.isSome_iff_exists.mp (h v (List.mem_cons_self v rest))
    have hfst : (walkDirFunc env o v.path v.entry v.walkErr).1 =
        StepOutcome.ret none := by
      rw [hd]; exact walkDirFunc_fst env o v.path d v.walkErr
    have hrest : ∀ u ∈ rest, u.entry.isSome := fun u hu =>
      h u (List.mem_cons_of_mem v hu)
    simp only [runWalk, hfst, ih hrest, List.map_cons, List.flatten_cons]

/-- A full `main` run over directories that pass the precondition checks
and a traversal with non-nil entries: one top-level configuration load
followed by the walk, ending in success. -/
theorem runMain_eq (env : Env) (visits : List Visit)
    (hsrc : checkDirectory env env.config.SourceDir = none)
    (hout : checkDirectory env env.config.OutputDir = none)
    (h : ∀ v ∈ visits, v.entry.isSome) :
    runMain env visits =
      (RunResult.success,
        Event.configLoad ::
          (visits.map fun v =>
            (walkDirFunc env env.config.OutputDir v.path v.entry v.walkErr).2).flatten) := by
  unfold runMain loadConfig
  simp only [hsrc, hout, runWalk_eq env env.config.OutputDir visits h,
    List.singleton_append]

/-! ### Claims -/

/-- C1: for every dimensions value the inspector returns and the configured
threshold, `isImageWallpaper` answers `true` exactly when the width is at
least the minimum width and the height at least the minimum height; so
dimensions exactly at the threshold qualify and one pixel below either
minimum does not. -/
theorem C1_qualification_iff (env : Env) (p : String) (w h : Int)
    (hsize : (imageSize env p).1 = Except.ok (w, h)) :
    (isImageWallpaper env p).1 = Except.ok true ↔
      env.config.MinimumWidth ≤ w ∧ env.config.MinimumHeight ≤ h := by
  rw [isImageWallpaper_ok env p w h hsize]
  by_cases hlt : w < env.config.MinimumWidth ∨ h < env.config.MinimumHeight
  · rw [if_pos hlt]
    constructor
    · intro ht; simp at ht
    · intro hc; exact absurd hc (by omega)
  · rw [if_neg hlt]
    push_neg at hlt
    exact ⟨fun _ => ⟨hlt.1, hlt.2⟩, fun _ => rfl⟩

/-- Witness for C1 at the boundary: 1080×1080 qualifies under the
1080×1080 threshold, 1079×1080 does not. -/
theorem C1_qualification_iff_witness :
    ((imageSize eqEnv "cache/img1").1 = Except.ok (1080, 1080) ∧
      (isImageWallpaper eqEnv "cache/img1").1 = Except.ok true) ∧
    ((imageSize belowEnv "cache/img1").1 = Except.ok (1079, 1080) ∧
      ¬(isImageWallpaper belowEnv "cache/img1").1 = Except.ok true) := by
  refine ⟨⟨rfl, ?_⟩, ⟨rfl, ?_⟩⟩
  · exact (C1_qualification_iff eqEnv "cache/img1" 1080 1080 rfl).mpr (by decide)
  · intro ht
    have hc := (C1_qualification_iff belowEnv "cache/img1" 1079 1080 rfl).mp ht
    revert hc; decide

/-- C2: for a qualifying candidate the pipeline derives the target path as
`join(outputDir, baseName ++ ".jpg")`; with a conclusive target stat and
working copy oracles it copies the source's full byte content to that path
exactly when no file exists there, and when one does exist it skips the
copy — never reading the existing file's content — and logs the
`already exists` line. -/
theorem C2_copy_iff_fresh (env : Env) (o p : String) (d : DirEntry)
    (w : Option String) (hdir : d.isDir = false)
    (hq : (isImageWallpaper env p).1 = Except.ok true)
    (hstat : env.stat (joinPath o (d.name ++ ".jpg")) ≠ StatResult.otherError)
    (hcr : env.createOk (joinPath o (d.name ++ ".jpg")) = true)
    (hop : env.openOk p = true)
    (hcp : env.copyOk p (joinPath o (d.name ++ ".jpg")) = true) :
    (env.stat (joinPath o (d.name ++ ".jpg")) = StatResult.noEntry →
      walkDirFunc env o p (some d) w =
        (StepOutcome.ret none,
          (isImageWallpaper env p).2
            ++ [Event.logged ("copying file " ++ joinPath o (d.name ++ ".jpg")),
                Event.created (joinPath o (d.name ++ ".jpg")),
                Event.openedRead p,
                Event.written (joinPath o (d.name ++ ".jpg")) (env.content p)])) ∧
    (env.stat (joinPath o (d.name ++ ".jpg")) = StatResult.found →
      walkDirFunc env o p (some d) w =
        (StepOutcome.ret none,
          (isImageWallpaper env p).2
            ++ [Event.logged
                  ("File " ++ joinPath o (d.name ++ ".jpg") ++ " already exists")])) ∧
    (Event.written (joinPath o (d.name ++ ".jpg")) (env.content p)
        ∈ (walkDirFunc env o p (some d) w).2 ↔
      env.stat (joinPath o (d.name ++ ".jpg")) = StatResult.noEntry) := by
  have h1 : env.stat (joinPath o (d.name ++ ".jpg")) = StatResult.noEntry →
      walkDirFunc env o p (some d) w =
        (StepOutcome.ret none,
          (isImageWallpaper env p).2
            ++ [Event.logged ("copying file " ++ joinPath o (d.name ++ ".jpg")),
                Event.created (joinPath o (d.name ++ ".jpg")),
                Event.openedRead p,
                Event.written (joinPath o (d.name ++ ".jpg")) (env.content p)]) := by
    intro hne
    rw [walkDirFunc_copy env o p d w hdir hq hne,
      copyFile_ok env p (joinPath o (d.name ++ ".jpg")) hcr hop hcp]
    simp
  have h2 : env.stat (joinPath o (d.name ++ ".jpg")) = StatResult.found →
      walkDirFunc env o p (some d) w =
        (StepOutcome.ret none,
          (isImageWallpaper env p).2
            ++ [Event.logged
                  ("File " ++ joinPath o (d.name ++ ".jpg") ++ " already exists")]) := by
    intro hf
    exact walkDirFunc_skip env o p d w hdir hq (by simp [hf])
  refine ⟨h1, h2, ?_, ?_⟩
  · intro hmem
    cases hs : env.stat (joinPath o (d.name ++ ".jpg"))
    case noEntry => rfl
    case otherError => exact absurd hs hstat
    case found =>
      rw [h2 hs] at hmem
      simp only [List.mem_append, List.mem_singleton] at hmem
      rcases hmem with hm | hm
      · have := isImageWallpaper_no_writes env p _ hm
        simp [writePath] at this
      · exact Event.noConfusion hm
  · intro hne
    rw [h1 hne]
    simp

/-- Witness for C2: on a fresh 1920×1080 candidate `cache/abc123` the
written target is present in the trace exactly because the stat on
`pics/abc123.jpg` reports not-exist. -/
theorem C2_copy_iff_fresh_witness :
    Event.written (joinPath "pics" ("abc123" ++ ".jpg"))
        (goodEnv.content "cache/abc123")
      ∈ (walkDirFunc goodEnv "pics" "cache/abc123"
          (some ⟨"abc123", false⟩) none).2 ↔
      goodEnv.stat (joinPath "pics" ("abc123" ++ ".jpg")) =
        StatResult.noEntry :=
  (C2_copy_iff_fresh goodEnv "pics" "cache/abc123" ⟨"abc123", false⟩ none
    rfl rfl (by decide) rfl rfl rfl).2.2

/-- C3 fails on the code: a traversal-level I/O error handed to the
callback mid-walk (here a read error on the directory `cache/sub`) does not
abort the run — the callback discards its error argument and returns
`nil` — so the walk continues, the following file `cache/img1` is still
copied, and the run ends in success with no overall error. -/
theorem C3_counterexample :
    (runMain goodEnv errVisits).1 = RunResult.success ∧
    Event.logged ("copying file " ++ joinPath "pics" ("img1" ++ ".jpg"))
      ∈ (runMain goodEnv errVisits).2 := by
  constructor
  · rfl
  · decide

/-- C3 amended: traversal-level I/O errors reported to the callback are
ignored — the run is unchanged if every visit's traversal error is erased —
and a walk whose visits all carry a non-nil entry returns `nil` overall no
matter which traversal errors occur, instead of aborting. -/
theorem C3_amended_errors_ignored (env : Env) (o : String)
    (visits : List Visit) (h : ∀ v ∈ visits, v.entry.isSome) :
    runWalk env o visits =
      runWalk env o (visits.map fun v => ⟨v.path, v.entry, none⟩) ∧
    (runWalk env o visits).1 = RunResult.success := by
  have hmapped : ∀ u ∈ visits.map fun v => (⟨v.path, v.entry, none⟩ : Visit),
      u.entry.isSome := by
    intro u hu
    obtain ⟨v, hv, rfl⟩ := List.mem_map.mp hu
    exact h v hv
  constructor
  · rw [runWalk_eq env o visits h, runWalk_eq env o _ hmapped, List.map_map]
    rfl
  · rw [runWalk_eq env o visits h]

/-- Witness for the amended C3: the run over the error-carrying traversal
of `errVisits` completes successfully. -/
theorem C3_amended_errors_ignored_witness :
    (runWalk goodEnv "pics" errVisits).1 = RunResult.success :=
  (C3_amended_errors_ignored goodEnv "pics" errVisits (by decide)).2

/-- C4: with every visit carrying a non-nil entry, the walk returns `nil`
overall regardless of per-file outcomes; its trace is exactly the
concatenation of the per-entry traces, so every entry is visited; and a
per-file dimension-extraction failure or copy failure only logs its error
line while the traversal continues. -/
theorem C4_per_file_isolation (env : Env) (o : String) (visits : List Visit)
    (h : ∀ v ∈ visits, v.entry.isSome) :
    (runWalk env o visits).1 = RunResult.success ∧
    (runWalk env o visits).2 =
      (visits.map fun v =>
        (walkDirFunc env o v.path v.entry v.walkErr).2).flatten ∧
    (∀ v ∈ visits, ∀ d : DirEntry, v.entry = some d → d.isDir = false →
      ∀ msg, (isImageWallpaper env v.path).1 = Except.error msg →
        Event.logged msg ∈ (runWalk env o visits).2) ∧
    (∀ v ∈ visits, ∀ d : DirEntry, v.entry = some d → d.isDir = false →
      (isImageWallpaper env v.path).1 = Except.ok true →
      env.stat (joinPath o (d.name ++ ".jpg")) = StatResult.noEntry →
      ∀ e, (copyFile env v.path (joinPath o (d.name ++ ".jpg"))).1 = some e →
        Event.logged e ∈ (runWalk env o visits).2) := by
  have he := runWalk_eq env o visits h
  refine ⟨by rw [he], by rw [he], ?_, ?_⟩
  · intro v hv d hd hdir msg herr
    rw [he]
    apply List.mem_flatten.mpr
    refine ⟨(walkDirFunc env o v.path v.entry v.walkErr).2,
      List.mem_map.mpr ⟨v, hv, rfl⟩, ?_⟩
    rw [hd, walkDirFunc_error env o v.path d v.walkErr msg hdir herr]
    simp
  · intro v hv d hd hdir hq hstat e hc
    rw [he]
    apply List.mem_flatten.mpr
    refine ⟨(walkDirFunc env o v.path v.entry v.walkErr).2,
      List.mem_map.mpr ⟨v, hv, rfl⟩, ?_⟩
    rw [hd, walkDirFunc_copy env o v.path d v.walkErr hdir hq hstat, hc]
    simp

/-- Witness for C4: a run over one qualifying file and one corrupt file
succeeds and logs the corrupt file's extraction error. -/
theorem C4_per_file_isolation_witness :
    (runWalk mixEnv "pics" mixVisits).1 = RunResult.success ∧
    Event.logged ("couldn't get size of " ++ "cache/img3")
      ∈ (runWalk mixEnv "pics" mixVisits).2 := by
  have H := C4_per_file_isolation mixEnv "pics" mixVisits (by decide)
  exact ⟨H.1, H.2.2.1 ⟨"cache/img3", some ⟨"img3", false⟩, none⟩ (by decide)
    ⟨"img3", false⟩ rfl rfl ("couldn't get size of " ++ "cache/img3") rfl⟩

/-- C5 fails on the code: a run over a single candidate file loads the
configuration twice — once at the top of `main` and once more inside
`isImageWallpaper` — not exactly once. -/
theorem C5_counterexample :
    countLoads (runMain goodEnv oneFileVisits).2 = 2 := by
  rfl

/-- The walk's trace loads the configuration once per non-directory entry
visited. -/
theorem countLoads_runTrace (env : Env) (o : String) (visits : List Visit)
    (h : ∀ v ∈ visits, v.entry.isSome) :
    countLoads ((visits.map fun v =>
        (walkDirFunc env o v.path v.entry v.walkErr).2).flatten) =
      visits.countP (fun v =>
        match v.entry with
        | some d => !d.isDir
        | none => false) := by
  induction visits with
  | nil => rfl
  | cons v rest ih =>
    obtain ⟨d, hd⟩ := Option.isSome_iff_exists.mp (h v (List.mem_cons_self v rest))
    rw [List.map_cons, List.flatten_cons, countLoads_append, hd,
      countLoads_walkDirFunc, List.countP_cons,
      ih fun u hu => h u (List.mem_cons_of_mem v hu)]
    simp only [hd]
    cases d.isDir <;> simp <;> omega

/-- C5 amended: the configuration is loaded once at the top of the run and
then re-loaded once for every non-directory entry the walk visits
(`isImageWallpaper` calls `loadConfig` per candidate file). -/
theorem C5_amended_loads (env : Env) (visits : List Visit)
    (hsrc : checkDirectory env env.config.SourceDir = none)
    (hout : checkDirectory env env.config.OutputDir = none)
    (h : ∀ v ∈ visits, v.entry.isSome) :
    countLoads (runMain env visits).2 =
      1 + visits.countP (fun v =>
        match v.entry with
        | some d => !d.isDir
        | none => false) := by
  rw [runMain_eq env visits hsrc hout h]
  unfold countLoads
  rw [List.countP_cons]
  have := countLoads_runTrace env env.config.OutputDir visits h
  unfold countLoads at this
  rw [this]
  simp [isConfigLoad]
  omega

/-- Witness for the amended C5: on the one-file run the load count is one
plus the one candidate file. -/
theorem C5_amended_loads_witness :
    countLoads (runMain goodEnv oneFileVisits).2 =
      1 + oneFileVisits.countP (fun v =>
        match v.entry with
        | some d => !d.isDir
        | none => false) :=
  C5_amended_loads goodEnv oneFileVisits rfl rfl (by decide)

/-- `loggedLines` splits over trace concatenation. -/
theorem loggedLines_append (a b : List Event) :
    loggedLines (a ++ b) = loggedLines a ++ loggedLines b :=
  List.filterMap_append a b _

/-- `isImageWallpaper` itself logs nothing; its trace holds no log line. -/
theorem loggedLines_isImageWallpaper (env : Env) (p : String) :
    loggedLines (isImageWallpaper env p).2 = [] := by
  rw [isImageWallpaper_snd, imageSize_snd]
  cases hco : (env.meta p).canOpen <;> simp [hco, loggedLines]

/-- C6 fails on the code: the three failure conditions of `imageSize` —
cannot open, unrecognized container, unparseable dimension field — all
produce the identical report line `couldn't get size of <path>`, so they
are not distinguishable in the report, even though the underlying
`imageSize` errors differ. -/
theorem C6_counterexample :
    loggedLines (walkDirFunc openFailEnv "pics" "cache/img3"
        (some ⟨"img3", false⟩) none).2 =
      ["couldn't get size of cache/img3"] ∧
    loggedLines (walkDirFunc decodeFailEnv "pics" "cache/img3"
        (some ⟨"img3", false⟩) none).2 =
      ["couldn't get size of cache/img3"] ∧
    loggedLines (walkDirFunc parseFailEnv "pics" "cache/img3"
        (some ⟨"img3", false⟩) none).2 =
      ["couldn't get size of cache/img3"] ∧
    (imageSize openFailEnv "cache/img3").1 =
      Except.error ("couldn't open " ++ "cache/img3") ∧
    (imageSize decodeFailEnv "cache/img3").1 =
      Except.error ("couldn't extract metadata of " ++ "cache/img3") :=
  ⟨rfl, rfl, rfl, rfl, rfl⟩

/-- C6 amended: an extraction failure is reported as an error — never as
`qualifies` or as an ordinary non-qualification — and its log line is the
uniform `couldn't get size of <path>` (distinct from the too-small line,
which only the successful-extraction branch emits); the file is never
copied. The three underlying failure causes, however, are collapsed into
that single message and are distinguishable only at the `imageSize`
level. -/
theorem C6_amended_uniform_error (env : Env) (o p : String) (d : DirEntry)
    (w : Option String) (msg : String) (hdir : d.isDir = false)
    (herr : (imageSize env p).1 = Except.error msg) :
    (isImageWallpaper env p).1 =
      Except.error ("couldn't get size of " ++ p) ∧
    loggedLines (walkDirFunc env o p (some d) w).2 =
      ["couldn't get size of " ++ p] ∧
    (∀ e ∈ (walkDirFunc env o p (some d) w).2, writePath e = none) ∧
    (isImageWallpaper env p).1 ≠ Except.ok true ∧
    (isImageWallpaper env p).1 ≠ Except.ok false := by
  have hw := isImageWallpaper_error env p msg herr
  have hstep := walkDirFunc_error env o p d w _ hdir hw
  refine ⟨hw, ?_, ?_, by simp [hw], by simp [hw]⟩
  · rw [hstep]
    rw [show ((StepOutcome.ret none,
        (isImageWallpaper env p).2
          ++ [Event.logged ("couldn't get size of " ++ p)]) :
        StepOutcome × List Event).2 =
      (isImageWallpaper env p).2
        ++ [Event.logged ("couldn't get size of " ++ p)] from rfl]
    rw [loggedLines_append, loggedLines_isImageWallpaper]
    rfl
  · intro e he
    rw [hstep] at he
    rw [show ((StepOutcome.ret none,
        (isImageWallpaper env p).2
          ++ [Event.logged ("couldn't get size of " ++ p)]) :
        StepOutcome × List Event).2 =
      (isImageWallpaper env p).2
        ++ [Event.logged ("couldn't get size of " ++ p)] from rfl] at he
    rw [List.mem_append, List.mem_singleton] at he
    rcases he with he | rfl
    · exact isImageWallpaper_no_writes env p e he
    · rfl

/-- Witness for the amended C6: the unopenable `cache/img3` is reported
with the uniform extraction-error line. -/
theorem C6_amended_uniform_error_witness :
    loggedLines (walkDirFunc openFailEnv "pics" "cache/img3"
        (some ⟨"img3", false⟩) none).2 =
      ["couldn't get size of " ++ "cache/img3"] :=
  (C6_amended_uniform_error openFailEnv "pics" "cache/img3" ⟨"img3", false⟩
    none ("couldn't open " ++ "cache/img3") rfl rfl).2.1

/-- A successfully parsed signed decimal whose string does not start with
a minus sign is nonnegative. -/
theorem parseSigned_nonneg (s : String) (u : Int)
    (hp : parseSigned s = some u) (hsign : s.data.head? ≠ some '-') :
    0 ≤ u := by
  unfold parseSigned at hp
  cases hd : s.data with
  | nil => rw [hd] at hp; exact absurd hp (by simp)
  | cons c cs =>
    rw [hd] at hp
    rw [hd] at hsign
    dsimp only at hp
    have hc : ¬(c = '-') := by simpa using hsign
    rw [if_neg hc] at hp
    by_cases hplus : c = '+'
    · rw [if_pos hplus] at hp
      cases cs with
      | nil => exact absurd hp (by simp)
      | cons c2 cs2 =>
        dsimp only at hp
        obtain ⟨n, _, hu⟩ := Option.map_eq_some'.mp hp
        rw [← hu]
        exact Int.ofNat_nonneg n
    · rw [if_neg hplus] at hp
      obtain ⟨n, _, hu⟩ := Option.map_eq_some'.mp hp
      rw [← hu]
      exact Int.ofNat_nonneg n

/-- `strconv.Atoi` on a string that does not start with `-` yields a
nonnegative value whenever it succeeds. -/
theorem atoi_nonneg (s : String) (v : Int) (hok : atoi s = Except.ok v)
    (hsign : s.data.head? ≠ some '-') : 0 ≤ v := by
  unfold atoi at hok
  cases hp : parseSigned s with
  | none => rw [hp] at hok; exact absurd hok (by simp)
  | some u =>
    rw [hp] at hok
    dsimp only at hok
    by_cases hr : u < int64Min ∨ int64Max < u
    · rw [if_pos hr] at hok; exact absurd hok (by simp)
    · rw [if_neg hr] at hok
      have hu : u = v := by simpa using hok
      rw [← hu]
      exact parseSigned_nonneg s u hp hsign

/-- Inversion of a successful `imageSize`: both tags were present and
`strconv.Atoi` parsed them to exactly the returned values. -/
theorem imageSize_ok_inv (env : Env) (p : String) (w h : Int)
    (hok : (imageSize env p).1 = Except.ok (w, h)) :
    ∃ ws hs, (env.meta p).widthTag = some ws ∧
      (env.meta p).heightTag = some hs ∧
      atoi ws = Except.ok w ∧ atoi hs = Except.ok h := by
  unfold imageSize at hok
  dsimp only at hok
  cases hco : (env.meta p).canOpen <;> rw [hco] at hok
  · rw [if_pos rfl] at hok
    exact absurd hok (by simp)
  · rw [if_neg (by simp)] at hok
    cases hex : (env.meta p).exifOk <;> rw [hex] at hok
    · rw [if_pos rfl] at hok
      exact absurd hok (by simp)
    · rw [if_neg (by simp)] at hok
      cases hwt : (env.meta p).widthTag with
      | none => rw [hwt] at hok; simp at hok
      | some ws =>
        rw [hwt] at hok
        dsimp only at hok
        cases hht : (env.meta p).heightTag with
        | none => rw [hht] at hok; simp at hok
        | some hs =>
          rw [hht] at hok
          dsimp only at hok
          cases haw : atoi ws with
          | error e => rw [haw] at hok; simp at hok
          | ok wv =>
            rw [haw] at hok
            dsimp only at hok
            cases hah : atoi hs with
            | error e => rw [hah] at hok; simp at hok
            | ok hv =>
              rw [hah] at hok
              dsimp only at hok
              rw [Except.ok.injEq, Prod.mk.injEq] at hok
              exact ⟨ws, hs, rfl, rfl, by rw [haw, hok.1], by rw [hah, hok.2]⟩

/-- C7 fails on the code: `imageSize` succeeds on a file whose EXIF width
tag renders as `-1`, returning a negative width — `strconv.Atoi` accepts a
leading minus sign and no nonnegativity check follows it. -/
theorem C7_counterexample :
    (imageSize negEnv "cache/img9").1 = Except.ok (-1, 1080) ∧
    ¬(0 ≤ (-1 : Int)) :=
  ⟨rfl, by decide⟩

/-- C7 amended: a successful `imageSize` returns exactly the
`strconv.Atoi` values of the two tag strings, and these are nonnegative
whenever neither tag string starts with a minus sign (as is the case for
well-formed unsigned EXIF dimension tags); the code itself performs no
sign check. -/
theorem C7_amended_nonneg (env : Env) (p : String) (w h : Int)
    (ws hs : String)
    (hwt : (env.meta p).widthTag = some ws)
    (hht : (env.meta p).heightTag = some hs)
    (hwsign : ws.data.head? ≠ some '-')
    (hhsign : hs.data.head? ≠ some '-')
    (hok : (imageSize env p).1 = Except.ok (w, h)) :
    0 ≤ w ∧ 0 ≤ h := by
  obtain ⟨ws', hs', hwt', hht', haw, hah⟩ := imageSize_ok_inv env p w h hok
  rw [hwt] at hwt'
  rw [hht] at hht'
  obtain rfl : ws = ws' := Option.some.inj hwt'
  obtain rfl : hs = hs' := Option.some.inj hht'
  exact ⟨atoi_nonneg ws w haw hwsign, atoi_nonneg hs h hah hhsign⟩

/-- Witness for the amended C7: the 1920×1080 inspection result is
componentwise nonnegative. -/
theorem C7_amended_nonneg_witness :
    (imageSize goodEnv "cache/img1").1 = Except.ok (1920, 1080) ∧
    (0 : Int) ≤ 1920 ∧ (0 : Int) ≤ 1080 :=
  ⟨rfl, C7_amended_nonneg goodEnv "cache/img1" 1920 1080 "1920" "1080"
    rfl rfl (by decide) (by decide) rfl⟩

/-- Every write of the walk callback on a non-nil entry targets the
derived `.jpg` path of that entry under the output directory. -/
theorem walkDirFunc_writes (env : Env) (o p : String) (d : DirEntry)
    (w : Option String) :
    ∀ e ∈ (walkDirFunc env o p (some d) w).2, ∀ q, writePath e = some q →
      d.isDir = false ∧ q = joinPath o (d.name ++ ".jpg") := by
  cases hd : d.isDir
  · cases hq : (isImageWallpaper env p).1 with
    | error msg =>
      rw [walkDirFunc_error env o p d w msg hd hq]
      intro e he q hqe
      rw [List.mem_append, List.mem_singleton] at he
      rcases he with he | rfl
      · rw [isImageWallpaper_no_writes env p e he] at hqe
        exact Option.noConfusion hqe
      · exact Option.noConfusion hqe
    | ok b =>
      cases b
      · rw [walkDirFunc_small env o p d w hd hq]
        intro e he q hqe
        rw [List.mem_append, List.mem_singleton] at he
        rcases he with he | rfl
        · rw [isImageWallpaper_no_writes env p e he] at hqe
          exact Option.noConfusion hqe
        · exact Option.noConfusion hqe
      · cases hstat : env.stat (joinPath o (d.name ++ ".jpg"))
        case noEntry =>
          rw [walkDirFunc_copy env o p d w hd hq hstat]
          intro e he q hqe
          simp only [List.mem_append] at he
          rcases he with ((he | he) | he) | he
          · rw [isImageWallpaper_no_writes env p e he] at hqe
            exact Option.noConfusion hqe
          · rw [List.mem_singleton] at he
            subst he
            exact Option.noConfusion hqe
          · exact ⟨rfl,
              copyFile_writes env p (joinPath o (d.name ++ ".jpg")) e he q hqe⟩
          · rcases hcp : (copyFile env p (joinPath o (d.name ++ ".jpg"))).1 with
              _ | msg <;> rw [hcp] at he
            · simp at he
            · rw [List.mem_singleton] at he
              subst he
              exact Option.noConfusion hqe
        case found =>
          rw [walkDirFunc_skip env o p d w hd hq (by simp [hstat])]
          intro e he q hqe
          rw [List.mem_append, List.mem_singleton] at he
          rcases he with he | rfl
          · rw [isImageWallpaper_no_writes env p e he] at hqe
            exact Option.noConfusion hqe
          · exact Option.noConfusion hqe
        case otherError =>
          rw [walkDirFunc_skip env o p d w hd hq (by simp [hstat])]
          intro e he q hqe
          rw [List.mem_append, List.mem_singleton] at he
          rcases he with he | rfl
          · rw [isImageWallpaper_no_writes env p e he] at hqe
            exact Option.noConfusion hqe
          · exact Option.noConfusion hqe
  · rw [walkDirFunc_dir env o p d w hd]
    intro e he
    simp at he

/-- C8: over any completed walk, every event that creates or writes a file
targets `join(outputDir, baseName ++ ".jpg")` for some visited
non-directory entry — nothing else is written; source paths appear only in
read-opens, and the event vocabulary of the pipeline contains no deletion
or modification of existing files (`main.go` performs none). -/
theorem C8_frame (env : Env) (o : String) (visits : List Visit)
    (h : ∀ v ∈ visits, v.entry.isSome) :
    ∀ e ∈ (runWalk env o visits).2, ∀ q, writePath e = some q →
      ∃ v ∈ visits, ∃ d : DirEntry, v.entry = some d ∧ d.isDir = false ∧
        q = joinPath o (d.name ++ ".jpg") := by
  intro e he q hq
  rw [runWalk_eq env o visits h] at he
  obtain ⟨l, hl, hel⟩ := List.mem_flatten.mp he
  obtain ⟨v, hv, rfl⟩ := List.mem_map.mp hl
  obtain ⟨d, hd⟩ := Option.isSome_iff_exists.mp (h v hv)
  rw [hd] at hel
  obtain ⟨hdir, hqe⟩ := walkDirFunc_writes env o v.path d v.walkErr e hel q hq
  exact ⟨v, hv, d, hd, hdir, hqe⟩

/-- Witness for C8: the one write of the single-file run targets
`pics/img1.jpg`, the derived path of the visited entry. -/
theorem C8_frame_witness :
    ∃ v ∈ oneFileVisits, ∃ d : DirEntry, v.entry = some d ∧
      d.isDir = false ∧
      joinPath "pics" ("img1" ++ ".jpg") = joinPath "pics" (d.name ++ ".jpg") :=
  C8_frame goodEnv "pics" oneFileVisits (by decide)
    (Event.written (joinPath "pics" ("img1" ++ ".jpg"))
      (goodEnv.content "cache/img1"))
    (by decide) (joinPath "pics" ("img1" ++ ".jpg")) rfl

/-- C9: when `os.Stat` on the derived target fails with an error other
than not-exist, `os.IsNotExist` is false, so the pipeline takes the
already-exists branch: it logs the file as already existing and performs
no write at all, even though the destination may not exist. -/
theorem C9_stat_error_skips (env : Env) (o p : String) (d : DirEntry)
    (w : Option String) (hdir : d.isDir = false)
    (hq : (isImageWallpaper env p).1 = Except.ok true)
    (hstat : env.stat (joinPath o (d.name ++ ".jpg")) =
      StatResult.otherError) :
    walkDirFunc env o p (some d) w =
      (StepOutcome.ret none,
        (isImageWallpaper env p).2
          ++ [Event.logged
                ("File " ++ joinPath o (d.name ++ ".jpg")
                  ++ " already exists")]) ∧
    ∀ e ∈ (walkDirFunc env o p (some d) w).2, writePath e = none := by
  have hs : env.stat (joinPath o (d.name ++ ".jpg")) ≠
      StatResult.noEntry := by simp [hstat]
  have hstep := walkDirFunc_skip env o p d w hdir hq hs
  refine ⟨hstep, ?_⟩
  intro e he
  rw [hstep] at he
  rw [show ((StepOutcome.ret none,
      (isImageWallpaper env p).2
        ++ [Event.logged
              ("File " ++ joinPath o (d.name ++ ".jpg")
                ++ " already exists")]) : StepOutcome × List Event).2 =
    (isImageWallpaper env p).2
      ++ [Event.logged
            ("File " ++ joinPath o (d.name ++ ".jpg")
              ++ " already exists")] from rfl] at he
  rw [List.mem_append, List.mem_singleton] at he
  rcases he with he | rfl
  · exact isImageWallpaper_no_writes env p e he
  · rfl

/-- Witness for C9: with every target stat failing with a permission-style
error, the qualifying `cache/img1` is skipped with the already-exists
log line. -/
theorem C9_stat_error_skips_witness :
    walkDirFunc statErrEnv "pics" "cache/img1" (some ⟨"img1", false⟩) none =
      (StepOutcome.ret none,
        (isImageWallpaper statErrEnv "cache/img1").2
          ++ [Event.logged
                ("File " ++ joinPath "pics" ("img1" ++ ".jpg")
                  ++ " already exists")]) :=
  (C9_stat_error_skips statErrEnv "pics" "cache/img1" ⟨"img1", false⟩ none
    rfl rfl rfl).1

/-- C10: the walk callback calls `d.IsDir()` with no nil check, so when
`WalkDir` invokes it with a nil entry (root stat failure) the program
panics — the run ends in a panic, not in a reported fatal error. -/
theorem C10_nil_entry_panics (env : Env) (o p : String) (w : Option String)
    (rest : List Visit) :
    walkDirFunc env o p none w = (StepOutcome.panicked, []) ∧
    (runWalk env o (⟨p, none, w⟩ :: rest)).1 = RunResult.panicked ∧
    ∀ msg, (runWalk env o (⟨p, none, w⟩ :: rest)).1 ≠ RunResult.fatal msg :=
  ⟨rfl, rfl, fun _ hc => RunResult.noConfusion hc⟩

end Wspotsave
